import Mathlib

/-!
Verification of the ml4convection repository against its natural-language
specification.  Each section embeds one part of the source code as Lean
definitions (reflectivity values, grid coordinates and loss values are
modelled as rationals; boolean flag matrices as `Fin M → Fin N → Bool`;
fallible float operations as explicit `Flt` values) and proves or refutes
the corresponding specification claims.
-/

namespace Np

/-! ## Shared numeric-array helpers

`npMax` models `numpy.max` / the backend's max reduction over one axis.
NumPy raises on an empty axis; this total model returns 0 for the empty
list, and theorems about code that reduces a possibly-empty axis carry a
positivity hypothesis on the axis length.
-/

def npMax (l : List ℚ) : ℚ := l.foldr max (l.headD 0)

theorem le_foldr_max_of_mem {x : ℚ} {l : List ℚ} (init : ℚ) (hx : x ∈ l) :
    x ≤ l.foldr max init := by
  induction l with
  | nil => cases hx
  | cons y ys ih =>
    rcases List.mem_cons.mp hx with h | h
    · subst h
      exact le_max_left _ _
    · exact le_trans (ih h) (le_max_right _ _)

theorem init_le_foldr_max (init : ℚ) (l : List ℚ) : init ≤ l.foldr max init := by
  induction l with
  | nil => exact le_rfl
  | cons y ys ih => exact le_trans ih (le_max_right _ _)

theorem foldr_max_mem_cons (init : ℚ) (l : List ℚ) : l.foldr max init ∈ init :: l := by
  induction l with
  | nil => exact List.mem_singleton.mpr rfl
  | cons y ys ih =>
    simp only [List.foldr_cons]
    rcases max_choice y (ys.foldr max init) with h | h <;> rw [h]
    · simp
    · rcases List.mem_cons.mp ih with h' | h'
      · rw [h']
        simp
      · exact List.mem_cons_of_mem _ (List.mem_cons_of_mem _ h')

theorem le_npMax_of_mem {x : ℚ} {l : List ℚ} (hx : x ∈ l) : x ≤ npMax l :=
  le_foldr_max_of_mem _ hx

theorem npMax_mem {l : List ℚ} (hl : l ≠ []) : npMax l ∈ l := by
  cases l with
  | nil => exact absurd rfl hl
  | cons y ys =>
    have := foldr_max_mem_cons ((y :: ys).headD 0) (y :: ys)
    simpa [npMax] using this

theorem npMax_congr_mem {l₁ l₂ : List ℚ} (h₁ : l₁ ≠ []) (h₂ : l₂ ≠ [])
    (h : ∀ x, x ∈ l₁ ↔ x ∈ l₂) : npMax l₁ = npMax l₂ :=
  le_antisymm (le_npMax_of_mem ((h _).mp (npMax_mem h₁)))
    (le_npMax_of_mem ((h _).mpr (npMax_mem h₂)))

theorem sum_map_const {α : Type} (l : List α) (x : ℚ) :
    (l.map fun _ => x).sum = l.length * x := by
  induction l with
  | nil => simp
  | cons y ys ih =>
    simp [ih]
    ring

end Np

namespace EchoClassification

/-! ## Embedding of `ml4convection/echo_classification.py`

A reflectivity volume is `Fin M → Fin N → Fin H → ℚ` (rows × columns ×
heights), a convective-flag matrix is `Fin M → Fin N → Bool`.
-/

/-- `TOLERANCE = 1e-6` from `echo_classification.py`. -/
def TOLERANCE : ℚ := 1 / 1000000

/-- Number of `True` entries of a flag matrix (`numpy.sum(convective_flag_matrix)`). -/
def countConvective {M N : ℕ} (flag : Fin M → Fin N → Bool) : ℕ :=
  Finset.sum Finset.univ fun i : Fin M =>
    Finset.sum Finset.univ fun j : Fin N => if flag i j then 1 else 0

/-- `MELT_LEVEL_INTERCEPT_BY_MONTH_M_ASL` from `echo_classification.py`. -/
def MELT_LEVEL_INTERCEPT_BY_MONTH_M_ASL : Fin 12 → ℚ :=
  ![7072, 7896, 8558, 7988, 7464, 6728, 6080, 6270, 6786, 8670, 8892, 7936]

/-- `MELT_LEVEL_SLOPE_BY_MONTH_M_DEG01` from `echo_classification.py`. -/
def MELT_LEVEL_SLOPE_BY_MONTH_M_DEG01 : Fin 12 → ℚ :=
  ![-124, -152, -160, -128, -100, -65, -39, -44, -67, -137, -160, -147]

/-- `_estimate_melting_levels`.  In the source the month index is obtained
from the valid time through the vendored `time_conversion` boundary
(`unix_sec_to_string(valid_time, '%m')`); here the zero-based month index is
passed directly as `month : Fin 12`. -/
def _estimate_melting_levels (month : Fin 12) (latitudeDeg : ℚ) : ℚ :=
  MELT_LEVEL_INTERCEPT_BY_MONTH_M_ASL month +
    MELT_LEVEL_SLOPE_BY_MONTH_M_DEG01 month * |latitudeDeg|

/-- `_apply_convective_criterion2`: a pixel is convective if already marked
convective OR the composite reflectivity restricted (by an indicator
product, exactly as the source) to heights ≥ melting level + 1000 m reaches
`min_composite_refl_aml_dbz`. -/
def _apply_convective_criterion2 {M N H : ℕ}
    (reflectivity : Fin M → Fin N → Fin H → ℚ) (convectiveFlag : Fin M → Fin N → Bool)
    (latitudesDeg : Fin M → ℚ) (heights : Fin H → ℚ) (month : Fin 12)
    (minCompositeReflAml : ℚ) : Fin M → Fin N → Bool :=
  fun i j =>
    let compositeAml := Np.npMax (List.ofFn fun k =>
      (if heights k ≥ _estimate_melting_levels month (latitudesDeg i) + 1000 then (1 : ℚ) else 0) *
        reflectivity i j k)
    convectiveFlag i j || decide (compositeAml ≥ minCompositeReflAml)

/-- `_apply_convective_criterion3`: a pixel is convective if already marked
convective OR the echo top (max of height × indicator(reflectivity ≥ level))
reaches `min_echo_top_m_asl`. -/
def _apply_convective_criterion3 {M N H : ℕ}
    (reflectivity : Fin M → Fin N → Fin H → ℚ) (convectiveFlag : Fin M → Fin N → Bool)
    (heights : Fin H → ℚ) (minEchoTop : ℚ) (echoTopLevel : ℚ) : Fin M → Fin N → Bool :=
  fun i j =>
    let echoTop := Np.npMax (List.ofFn fun k =>
      (if reflectivity i j k ≥ echoTopLevel then (1 : ℚ) else 0) * heights k)
    convectiveFlag i j || decide (echoTop ≥ minEchoTop)

/-- Value of the flag matrix cast to float, with the zero padding used by
`scipy.ndimage.convolve(..., mode='constant', cval=0.)`. -/
def paddedFlagValue {M N : ℕ} (flag : Fin M → Fin N → Bool) (i j : ℤ) : ℚ :=
  if h : 0 ≤ i ∧ i < (M : ℤ) ∧ 0 ≤ j ∧ j < (N : ℤ) then
    (if flag ⟨i.toNat, by omega⟩ ⟨j.toNat, by omega⟩ then 1 else 0)
  else 0

/-- The 3×3 uniform-average convolution of the flag matrix used by criteria
4 and 5 (`weight_matrix = full((3,3), 1/9)`, zero-padded edges). -/
def neighborhoodAverage {M N : ℕ} (flag : Fin M → Fin N → Bool)
    (i : Fin M) (j : Fin N) : ℚ :=
  Finset.sum (Finset.range 3) fun a =>
    Finset.sum (Finset.range 3) fun b =>
      (1 / 9) * paddedFlagValue flag ((i : ℤ) + a - 1) ((j : ℤ) + b - 1)

/-- `_apply_convective_criterion4`: a flagged pixel is kept only if its 3×3
neighbourhood average exceeds `1/9 + TOLERANCE`. -/
def _apply_convective_criterion4 {M N : ℕ} (convectiveFlag : Fin M → Fin N → Bool) :
    Fin M → Fin N → Bool :=
  fun i j =>
    convectiveFlag i j && decide (neighborhoodAverage convectiveFlag i j > 1 / 9 + TOLERANCE)

/-- `_apply_convective_criterion5`: a pixel becomes convective if it already
is, OR its 3×3 neighbourhood average is positive AND its composite (column
max) reflectivity reaches `min_composite_refl_dbz`. -/
def _apply_convective_criterion5 {M N H : ℕ}
    (reflectivity : Fin M → Fin N → Fin H → ℚ) (convectiveFlag : Fin M → Fin N → Bool)
    (minCompositeRefl : ℚ) : Fin M → Fin N → Bool :=
  fun i j =>
    let composite := Np.npMax (List.ofFn fun k => reflectivity i j k)
    convectiveFlag i j ||
      (decide (neighborhoodAverage convectiveFlag i j > 0) && decide (composite ≥ minCompositeRefl))

theorem countConvective_le_of_imp {M N : ℕ} {f g : Fin M → Fin N → Bool}
    (h : ∀ i j, f i j = true → g i j = true) :
    countConvective f ≤ countConvective g := by
  refine Finset.sum_le_sum fun i _ => Finset.sum_le_sum fun j _ => ?_
  by_cases hf : f i j
  · simp [hf, h i j hf]
  · simp [hf]

end EchoClassification

/-- C1: criteria 2, 3 and 5 never clear a set flag (pointwise, hence the
convective-pixel count can only grow across them), while criterion 4 never
sets a new flag (the count can only shrink). -/
theorem echo_classification_monotone {M N H : ℕ} (hH : 0 < H)
    (reflectivity : Fin M → Fin N → Fin H → ℚ) (flag : Fin M → Fin N → Bool)
    (latitudesDeg : Fin M → ℚ) (heights : Fin H → ℚ) (month : Fin 12)
    (minCompositeReflAml minEchoTop echoTopLevel minCompositeRefl5 : ℚ) :
    (∀ i j, flag i j = true →
      EchoClassification._apply_convective_criterion2 reflectivity flag latitudesDeg heights month
        minCompositeReflAml i j = true) ∧
    EchoClassification.countConvective flag ≤
      EchoClassification.countConvective
        (EchoClassification._apply_convective_criterion2 reflectivity flag latitudesDeg heights month
          minCompositeReflAml) ∧
    (∀ i j, flag i j = true →
      EchoClassification._apply_convective_criterion3 reflectivity flag heights minEchoTop
        echoTopLevel i j = true) ∧
    EchoClassification.countConvective flag ≤
      EchoClassification.countConvective
        (EchoClassification._apply_convective_criterion3 reflectivity flag heights minEchoTop
          echoTopLevel) ∧
    (∀ i j, EchoClassification._apply_convective_criterion4 flag i j = true → flag i j = true) ∧
    EchoClassification.countConvective (EchoClassification._apply_convective_criterion4 flag) ≤
      EchoClassification.countConvective flag ∧
    (∀ i j, flag i j = true →
      EchoClassification._apply_convective_criterion5 reflectivity flag minCompositeRefl5 i j
        = true) ∧
    EchoClassification.countConvective flag ≤
      EchoClassification.countConvective
        (EchoClassification._apply_convective_criterion5 reflectivity flag minCompositeRefl5) := by
  have h2 : ∀ i j, flag i j = true →
      EchoClassification._apply_convective_criterion2 reflectivity flag latitudesDeg heights month
        minCompositeReflAml i j = true := by
    intro i j hf
    simp [EchoClassification._apply_convective_criterion2, hf]
  have h3 : ∀ i j, flag i j = true →
      EchoClassification._apply_convective_criterion3 reflectivity flag heights minEchoTop
        echoTopLevel i j = true := by
    intro i j hf
    simp [EchoClassification._apply_convective_criterion3, hf]
  have h4 : ∀ i j, EchoClassification._apply_convective_criterion4 flag i j = true →
      flag i j = true := by
    intro i j hf
    simp only [EchoClassification._apply_convective_criterion4, Bool.and_eq_true] at hf
    exact hf.1
  have h5 : ∀ i j, flag i j = true →
      EchoClassification._apply_convective_criterion5 reflectivity flag minCompositeRefl5 i j
        = true := by
    intro i j hf
    simp [EchoClassification._apply_convective_criterion5, hf]
  exact ⟨h2, EchoClassification.countConvective_le_of_imp h2,
    h3, EchoClassification.countConvective_le_of_imp h3,
    h4, EchoClassification.countConvective_le_of_imp h4,
    h5, EchoClassification.countConvective_le_of_imp h5⟩

/-- Witness for C1: the monotonicity theorem applied at a concrete 1×1×1
volume. -/
theorem echo_classification_monotone_witness :
    0 < 1 ∧
    EchoClassification.countConvective (fun _ _ : Fin 1 => false) ≤
      EchoClassification.countConvective
        (EchoClassification._apply_convective_criterion2 (fun _ _ _ : Fin 1 => (0 : ℚ))
          (fun _ _ => false) (fun _ => 0) (fun _ => 0) 0 45) := by
  refine ⟨by decide, ?_⟩
  exact (echo_classification_monotone (M := 1) (N := 1) (H := 1) (by decide)
    (fun _ _ _ => 0) (fun _ _ => false) (fun _ => 0) (fun _ => 0) 0 45 10000 25 25).2.1

namespace CoordConv

/-! ## Embedding of `ml4convection/machine_learning/coord_conv.py` (test mode)

In test mode both functions return only the two generated coordinate
channels (x first, then y), as a plain array.  The backend tensor-operation
chain (`ones`/`arange`/`tile`/`batch_dot`/`permute_dimensions`) is embedded
step by step below; values are rationals.
-/

/-- `one_matrix_for_y` after `expand_dims(axis=-1)`: an E×C×1 array of ones. -/
def oneMatrixForY (E C : ℕ) : Fin E → Fin C → Fin 1 → ℚ := fun _ _ _ => 1

/-- `K.arange(0, num_grid_rows)` after `expand_dims(axis=0)`, `tile` over the
example axis and `expand_dims(axis=1)`: an E×1×R array whose value at
`[e, 0, r]` is `r`. -/
def arangeRows (E R : ℕ) : Fin E → Fin 1 → Fin R → ℚ := fun _ _ r => (r : ℚ)

/-- `K.batch_dot(one_matrix_for_y, y_coord_matrix, axes=[2, 1])`: the E×C×R
array contracting the singleton axes. -/
def batchDotY (E C R : ℕ) : Fin E → Fin C → Fin R → ℚ :=
  fun e c r => Finset.sum Finset.univ fun k : Fin 1 => oneMatrixForY E C e c k * arangeRows E R e k r

/-- The y-coordinate (row) channel after `expand_dims(axis=-1)`,
`permute_dimensions([0, 2, 1, 3])` and the affine rescaling
`(y / (num_rows - 1)) * 2 - 1`. -/
def yCoordMatrix (E R C : ℕ) : Fin E → Fin R → Fin C → ℚ :=
  fun e r c => batchDotY E C R e c r / ((R : ℚ) - 1) * 2 - 1

/-- `one_matrix_for_x` after `expand_dims(axis=1)`: an E×1×R array of ones. -/
def oneMatrixForX (E R : ℕ) : Fin E → Fin 1 → Fin R → ℚ := fun _ _ _ => 1

/-- `K.arange(0, num_grid_columns)` after `expand_dims(axis=0)`, `tile` and
`expand_dims(axis=-1)`: an E×C×1 array whose value at `[e, c, 0]` is `c`. -/
def arangeColumns (E C : ℕ) : Fin E → Fin C → Fin 1 → ℚ := fun _ c _ => (c : ℚ)

/-- `K.batch_dot(x_coord_matrix, one_matrix_for_x, axes=[2, 1])`: an E×C×R
array. -/
def batchDotX (E C R : ℕ) : Fin E → Fin C → Fin R → ℚ :=
  fun e c r => Finset.sum Finset.univ fun k : Fin 1 => arangeColumns E C e c k * oneMatrixForX E R e k r

/-- The x-coordinate (column) channel after `expand_dims(axis=-1)`,
`permute_dimensions([0, 2, 1, 3])` and `(x / (num_columns - 1)) * 2 - 1`. -/
def xCoordMatrix (E R C : ℕ) : Fin E → Fin R → Fin C → ℚ :=
  fun e r c => batchDotX E C R e c r / ((C : ℚ) - 1) * 2 - 1

/-- `add_spatial_coords_2d` in test mode: the E×R×C×2 concatenation of the
x channel (channel 0) and the y channel (channel 1). -/
def add_spatial_coords_2d (E R C : ℕ) : Fin E → Fin R → Fin C → Fin 2 → ℚ :=
  fun e r c ch => if ch.val = 0 then xCoordMatrix E R C e r c else yCoordMatrix E R C e r c

/-- `add_spatial_coords_2d_with_time` in test mode: both channels are
`expand_dims`-ed at axis −2 and `repeat_elements`-ed `num_times` times
before the rescaling, so the value is independent of the time index. -/
def add_spatial_coords_2d_with_time (E R C T : ℕ) :
    Fin E → Fin R → Fin C → Fin T → Fin 2 → ℚ :=
  fun e r c _ ch => if ch.val = 0 then xCoordMatrix E R C e r c else yCoordMatrix E R C e r c

end CoordConv

/-- C8: on a grid with at least 2 rows and 2 columns, the row-coordinate
channel of `add_spatial_coords_2d` equals `2·r/(R−1) − 1` (so −1 at the
first row and +1 at the last), the column-coordinate channel equals
`2·c/(C−1) − 1` (−1 at the first column, +1 at the last), and the channels
of `add_spatial_coords_2d_with_time` agree at every time step. -/
theorem coord_conv_channel_values {E R C : ℕ} (hR : 2 ≤ R) (hC : 2 ≤ C)
    (e : Fin E) (r : Fin R) (c : Fin C) :
    CoordConv.add_spatial_coords_2d E R C e r c 1 = 2 * (r : ℚ) / ((R : ℚ) - 1) - 1 ∧
    CoordConv.add_spatial_coords_2d E R C e r c 0 = 2 * (c : ℚ) / ((C : ℚ) - 1) - 1 ∧
    CoordConv.add_spatial_coords_2d E R C e ⟨0, by omega⟩ c 1 = -1 ∧
    CoordConv.add_spatial_coords_2d E R C e ⟨R - 1, by omega⟩ c 1 = 1 ∧
    CoordConv.add_spatial_coords_2d E R C e r ⟨0, by omega⟩ 0 = -1 ∧
    CoordConv.add_spatial_coords_2d E R C e r ⟨C - 1, by omega⟩ 0 = 1 ∧
    ∀ (T : ℕ) (t t' : Fin T) (ch : Fin 2),
      CoordConv.add_spatial_coords_2d_with_time E R C T e r c t ch =
        CoordConv.add_spatial_coords_2d_with_time E R C T e r c t' ch := by
  have hRne : ((R : ℚ) - 1) ≠ 0 := by
    have : (2 : ℚ) ≤ (R : ℚ) := by exact_mod_cast hR
    intro h
    nlinarith
  have hCne : ((C : ℚ) - 1) ≠ 0 := by
    have : (2 : ℚ) ≤ (C : ℚ) := by exact_mod_cast hC
    intro h
    nlinarith
  have hy : ∀ (r' : Fin R) (c' : Fin C),
      CoordConv.add_spatial_coords_2d E R C e r' c' 1 =
        2 * (r' : ℚ) / ((R : ℚ) - 1) - 1 := by
    intro r' c'
    simp only [CoordConv.add_spatial_coords_2d, CoordConv.yCoordMatrix,
      CoordConv.batchDotY, CoordConv.oneMatrixForY, CoordConv.arangeRows]
    norm_num
    ring
  have hx : ∀ (r' : Fin R) (c' : Fin C),
      CoordConv.add_spatial_coords_2d E R C e r' c' 0 =
        2 * (c' : ℚ) / ((C : ℚ) - 1) - 1 := by
    intro r' c'
    simp only [CoordConv.add_spatial_coords_2d, CoordConv.xCoordMatrix,
      CoordConv.batchDotX, CoordConv.oneMatrixForX, CoordConv.arangeColumns]
    norm_num
    ring
  refine ⟨hy r c, hx r c, ?_, ?_, ?_, ?_, ?_⟩
  · rw [hy]
    norm_num
  · rw [hy]
    have : ((⟨R - 1, by omega⟩ : Fin R) : ℚ) = (R : ℚ) - 1 := by
      have h1 : (1 : ℕ) ≤ R := by omega
      push_cast [Nat.cast_sub h1]
      norm_num
    rw [this]
    field_simp
    norm_num
  · rw [hx]
    norm_num
  · rw [hx]
    have : ((⟨C - 1, by omega⟩ : Fin C) : ℚ) = (C : ℚ) - 1 := by
      have h1 : (1 : ℕ) ≤ C := by omega
      push_cast [Nat.cast_sub h1]
      norm_num
    rw [this]
    field_simp
    norm_num
  · intro T t t' ch
    rfl

/-- Witness for C8: the channel-value theorem applied at a concrete 1×2×3
grid. -/
theorem coord_conv_channel_values_witness :
    2 ≤ 2 ∧
    CoordConv.add_spatial_coords_2d 1 2 3 0 1 2 1 = 2 * ((1 : Fin 2) : ℚ) / ((2 : ℚ) - 1) - 1 := by
  exact ⟨by decide, (coord_conv_channel_values (E := 1) (R := 2) (C := 3)
    (by decide) (by decide) 0 1 2).1⟩

namespace StandaloneUtils

/-! ## Embedding of `ml4convection/standalone_utils.py`

Feature matrices are total functions over `Fin` index types; access through
a natural-number index uses a guarded accessor (the guard is always true at
the indices generated by valid-padding pooling).
-/

def padGet4 {E M N C : ℕ} (f : Fin E → Fin M → Fin N → Fin C → ℚ)
    (e : Fin E) (i j : ℕ) (c : Fin C) : ℚ :=
  if h : i < M ∧ j < N then f e ⟨i, h.1⟩ ⟨j, h.2⟩ c else 0

def padGet3 {E P C : ℕ} (f : Fin E → Fin P → Fin C → ℚ)
    (e : Fin E) (p : ℕ) (c : Fin C) : ℚ :=
  if h : p < P then f e ⟨p, h⟩ c else 0

/-- `do_2d_pooling`: non-overlapping max- or average-pooling with a square
`w`×`w` window, stride `w` and valid padding over an E×M×N×C array
(`K.pool2d(..., pool_size=(w,w), strides=(w,w), padding='valid')`).  Output
spatial dimensions are `M/w` × `N/w` (floor division). -/
def do_2d_pooling {E M N C : ℕ} (f : Fin E → Fin M → Fin N → Fin C → ℚ)
    (doMaxPooling : Bool) (w : ℕ) :
    Fin E → Fin (M / w) → Fin (N / w) → Fin C → ℚ :=
  fun e i j c =>
    let window := (List.range w).flatMap fun a =>
      (List.range w).map fun b => padGet4 f e (i * w + a) (j * w + b) c
    if doMaxPooling then Np.npMax window else window.sum / ((w : ℚ) * w)

/-- The `expand_dims(axis=-2)` plus `repeat(..., repeats=w, axis=-2)` step of
`do_1d_pooling`: the E×P×C input replicated `w` times along a synthetic
column axis, giving an E×P×w×C array. -/
def expandAndRepeat {E P C : ℕ} (w : ℕ) (f : Fin E → Fin P → Fin C → ℚ) :
    Fin E → Fin P → Fin w → Fin C → ℚ :=
  fun e p _ c => f e p c

/-- `do_1d_pooling`: replicate across a synthetic second spatial axis,
delegate to `do_2d_pooling`, then drop the synthetic axis
(`feature_matrix[..., 0, :]`). -/
def do_1d_pooling {E P C : ℕ} (f : Fin E → Fin P → Fin C → ℚ)
    (doMaxPooling : Bool) (w : ℕ) : Fin E → Fin (P / w) → Fin C → ℚ :=
  fun e i c =>
    if h : 0 < w / w then
      do_2d_pooling (expandAndRepeat w f) doMaxPooling w e i ⟨0, h⟩ c
    else 0

/-- Direct non-overlapping 1-D pooling over the pixel axis, stated from the
claim: window `w`, stride `w`, max or average of the `w` pixels of each
block. -/
def direct_1d_pooling {E P C : ℕ} (f : Fin E → Fin P → Fin C → ℚ)
    (doMaxPooling : Bool) (w : ℕ) : Fin E → Fin (P / w) → Fin C → ℚ :=
  fun e i c =>
    let vals := (List.range w).map fun a => padGet3 f e (i * w + a) c
    if doMaxPooling then Np.npMax vals else vals.sum / (w : ℚ)

theorem block_index_lt {P w : ℕ} (i : Fin (P / w)) {a : ℕ} (ha : a < w) :
    i.val * w + a < P := by
  have h1 : i.val + 1 ≤ P / w := i.isLt
  have h2 : (i.val + 1) * w ≤ (P / w) * w := Nat.mul_le_mul_right w h1
  have h3 : (P / w) * w ≤ P := Nat.div_mul_le_self P w
  calc i.val * w + a < i.val * w + w := by omega
    _ = (i.val + 1) * w := by ring
    _ ≤ P := le_trans h2 h3

end StandaloneUtils

/-- C9: for every E×P×C feature array and window size w ≥ 2, `do_1d_pooling`
(replicate along a synthetic axis, 2-D pool, drop the axis) agrees with
direct non-overlapping 1-D max- or average-pooling over the pixel axis. -/
theorem do_1d_pooling_eq_direct {E P C : ℕ} (f : Fin E → Fin P → Fin C → ℚ)
    (doMaxPooling : Bool) (w : ℕ) (hw : 2 ≤ w) :
    StandaloneUtils.do_1d_pooling f doMaxPooling w =
      StandaloneUtils.direct_1d_pooling f doMaxPooling w := by
  funext e i c
  have hww : w / w = 1 := Nat.div_self (by omega)
  have h0 : 0 < w / w := by omega
  have hval : ∀ a, a < w →
      ((List.range w).map fun b =>
        StandaloneUtils.padGet4 (StandaloneUtils.expandAndRepeat w f) e
          (i.val * w + a) ((0 : ℕ) * w + b) c) =
      (List.range w).map fun _ => StandaloneUtils.padGet3 f e (i.val * w + a) c := by
    intro a ha
    refine List.map_congr_left fun b hb => ?_
    have hb' : b < w := List.mem_range.mp hb
    have hlt : i.val * w + a < P := StandaloneUtils.block_index_lt i ha
    simp only [StandaloneUtils.padGet4, StandaloneUtils.expandAndRepeat,
      StandaloneUtils.padGet3]
    rw [dif_pos ⟨hlt, by omega⟩, dif_pos hlt]
  have hwindow : ((List.range w).flatMap fun a =>
      (List.range w).map fun b =>
        StandaloneUtils.padGet4 (StandaloneUtils.expandAndRepeat w f) e
          (i.val * w + a) ((0 : ℕ) * w + b) c) =
      (List.range w).flatMap fun a =>
        (List.range w).map fun _ => StandaloneUtils.padGet3 f e (i.val * w + a) c := by
    refine List.flatMap_congr fun a ha => hval a (List.mem_range.mp ha)
  simp only [StandaloneUtils.do_1d_pooling, dif_pos h0,
    StandaloneUtils.do_2d_pooling, StandaloneUtils.direct_1d_pooling]
  rw [hwindow]
  by_cases hmax : doMaxPooling
  · subst hmax
    simp only [if_pos]
    refine Np.npMax_congr_mem ?_ ?_ ?_
    · intro hnil
      have : (w : ℕ) ≠ 0 := by omega
      have hmem : (0 : ℕ) ∈ List.range w := List.mem_range.mpr (by omega)
      have : StandaloneUtils.padGet3 f e (i.val * w + 0) c ∈
          ((List.range w).flatMap fun a =>
            (List.range w).map fun _ => StandaloneUtils.padGet3 f e (i.val * w + a) c) := by
        refine List.mem_flatMap.mpr ⟨0, hmem, ?_⟩
        exact List.mem_map.mpr ⟨0, hmem, rfl⟩
      rw [hnil] at this
      cases this
    · intro hnil
      have hmem : (0 : ℕ) ∈ List.range w := List.mem_range.mpr (by omega)
      have : StandaloneUtils.padGet3 f e (i.val * w + 0) c ∈
          ((List.range w).map fun a => StandaloneUtils.padGet3 f e (i.val * w + a) c) :=
        List.mem_map.mpr ⟨0, hmem, rfl⟩
      rw [hnil] at this
      cases this
    · intro x
      constructor
      · intro hx
        obtain ⟨a, ha, hx'⟩ := List.mem_flatMap.mp hx
        obtain ⟨b, _, hb'⟩ := List.mem_map.mp hx'
        exact List.mem_map.mpr ⟨a, ha, hb'⟩
      · intro hx
        obtain ⟨a, ha, hx'⟩ := List.mem_map.mp hx
        have hmem : (0 : ℕ) ∈ List.range w := List.mem_range.mpr (by omega)
        exact List.mem_flatMap.mpr ⟨a, ha, List.mem_map.mpr ⟨0, hmem, hx'⟩⟩
  · simp only [Bool.not_eq_true] at hmax
    subst hmax
    simp only [if_neg Bool.false_ne_true]
    have hsum : ∀ l : List ℕ,
        (l.flatMap fun a =>
          (List.range w).map fun _ => StandaloneUtils.padGet3 f e (i.val * w + a) c).sum =
        (w : ℚ) * (l.map fun a => StandaloneUtils.padGet3 f e (i.val * w + a) c).sum := by
      intro l
      induction l with
      | nil => simp
      | cons y ys ih =>
        simp only [List.flatMap_cons, List.sum_append, List.map_cons, List.sum_cons, ih,
          Np.sum_map_const, List.length_range]
        ring
    rw [hsum]
    have hwq : (w : ℚ) ≠ 0 := by
      exact_mod_cast (by omega : w ≠ 0)
    field_simp
    ring

/-- Witness for C9: the equivalence applied at a concrete 1×4×1 array with
window 2. -/
theorem do_1d_pooling_eq_direct_witness :
    2 ≤ 2 ∧
    StandaloneUtils.do_1d_pooling
      (fun (_ : Fin 1) (p : Fin 4) (_ : Fin 1) => (p : ℚ)) true 2 =
    StandaloneUtils.direct_1d_pooling
      (fun (_ : Fin 1) (p : Fin 4) (_ : Fin 1) => (p : ℚ)) true 2 :=
  ⟨by decide, do_1d_pooling_eq_direct (fun _ p _ => (p : ℚ)) true 2 (by decide)⟩

namespace CustomLosses

/-! ## Embedding of `fractions_skill_score`

(`ml4convection/custom_losses.py` and
`ml4convection/machine_learning/custom_losses.py`; the loss bodies are
identical.)  Tensors are single-channel E×M×N arrays of rationals.  The
final division is modelled with explicit IEEE-754 special values, since the
backend divides floats: `0/0` is NaN and `a/0` with `a ≠ 0` is a signed
infinity.
-/

/-- A float result: a finite rational, a signed infinity, or NaN. -/
inductive Flt where
  | fin (q : ℚ)
  | posInf
  | negInf
  | nan
deriving DecidableEq

/-- Float division of finite operands. -/
def fdiv (a b : ℚ) : Flt :=
  if b = 0 then (if a = 0 then Flt.nan else if a > 0 then Flt.posInf else Flt.negInf)
  else Flt.fin (a / b)

/-- `1. - x` on a float result. -/
def oneSub : Flt → Flt
  | Flt.fin q => Flt.fin (1 - q)
  | Flt.posInf => Flt.negInf
  | Flt.negInf => Flt.posInf
  | Flt.nan => Flt.nan

/-- Guarded tensor access (always in bounds at the indices produced by
valid-padding convolution). -/
def tGet {E M N : ℕ} (t : Fin E → Fin M → Fin N → ℚ) (e : Fin E) (i j : ℕ) : ℚ :=
  if h : i < M ∧ j < N then t e ⟨i, h.1⟩ ⟨j, h.2⟩ else 0

/-- The constant entry of the box-mean kernel built by
`_create_mean_filter(k, k, 1)` / `general_utils.create_mean_filter`:
`1 / ((2k+1)·(2k+1))`. -/
def meanFilterWeight (k : ℕ) : ℚ := 1 / ((2 * k + 1) * (2 * k + 1))

/-- `K.conv2d(x, kernel, padding='valid', strides=(1,1))` with the box-mean
kernel: the locally smoothed field, of spatial dimensions
`(M − 2k) × (N − 2k)`. -/
def smoothedField (k : ℕ) {E M N : ℕ} (t : Fin E → Fin M → Fin N → ℚ) :
    Fin E → Fin (M - 2 * k) → Fin (N - 2 * k) → ℚ :=
  fun e i j =>
    Finset.sum (Finset.range (2 * k + 1)) fun a =>
      Finset.sum (Finset.range (2 * k + 1)) fun b =>
        tGet t e (i.val + a) (j.val + b) * meanFilterWeight k

/-- `K.mean` over all entries of an E×A×B array. -/
def meanAll {E A B : ℕ} (g : Fin E → Fin A → Fin B → ℚ) : ℚ :=
  (Finset.sum Finset.univ fun e : Fin E =>
    Finset.sum Finset.univ fun i : Fin A =>
      Finset.sum Finset.univ fun j : Fin B => g e i j) / ((E : ℚ) * A * B)

/-- `actual_mse = K.mean((smoothed_target - smoothed_prediction) ** 2)`. -/
def actual_mse (k : ℕ) {E M N : ℕ} (t p : Fin E → Fin M → Fin N → ℚ) : ℚ :=
  meanAll fun e i j => (smoothedField k t e i j - smoothedField k p e i j) ^ 2

/-- `reference_mse = K.mean(smoothed_target ** 2 + smoothed_prediction ** 2)`. -/
def reference_mse (k : ℕ) {E M N : ℕ} (t p : Fin E → Fin M → Fin N → ℚ) : ℚ :=
  meanAll fun e i j => smoothedField k t e i j ^ 2 + smoothedField k p e i j ^ 2

/-- The loss closure returned by `fractions_skill_score(half_window_size_px,
use_as_loss_function)` (production mode, valid padding), applied to a
target/prediction pair. -/
def fractions_skill_score (k : ℕ) (useAsLossFunction : Bool) {E M N : ℕ}
    (t p : Fin E → Fin M → Fin N → ℚ) : Flt :=
  if useAsLossFunction then fdiv (actual_mse k t p) (reference_mse k t p)
  else oneSub (fdiv (actual_mse k t p) (reference_mse k t p))

end CustomLosses

/-- C6 counterexample: on the all-zero 1×1×1 tensor (window k = 0), both
smoothed fields are identically zero, so the loss is 0/0 = NaN rather than
exactly 0, and the skill score is NaN rather than exactly 1. -/
theorem fss_round_trip_counterexample :
    CustomLosses.fractions_skill_score 0 true
        (fun (_ : Fin 1) (_ : Fin 1) (_ : Fin 1) => (0 : ℚ)) (fun _ _ _ => 0) =
      CustomLosses.Flt.nan ∧
    CustomLosses.fractions_skill_score 0 false
        (fun (_ : Fin 1) (_ : Fin 1) (_ : Fin 1) => (0 : ℚ)) (fun _ _ _ => 0) =
      CustomLosses.Flt.nan ∧
    CustomLosses.Flt.nan ≠ CustomLosses.Flt.fin 0 ∧
    CustomLosses.Flt.nan ≠ CustomLosses.Flt.fin 1 := by
  have ha : CustomLosses.actual_mse 0
      (fun (_ : Fin 1) (_ : Fin 1) (_ : Fin 1) => (0 : ℚ)) (fun _ _ _ => 0) = 0 := by
    unfold CustomLosses.actual_mse CustomLosses.meanAll CustomLosses.smoothedField
      CustomLosses.tGet CustomLosses.meanFilterWeight
    simp
  have hr : CustomLosses.reference_mse 0
      (fun (_ : Fin 1) (_ : Fin 1) (_ : Fin 1) => (0 : ℚ)) (fun _ _ _ => 0) = 0 := by
    unfold CustomLosses.reference_mse CustomLosses.meanAll CustomLosses.smoothedField
      CustomLosses.tGet CustomLosses.meanFilterWeight
    simp
  unfold CustomLosses.fractions_skill_score CustomLosses.fdiv
  rw [ha, hr]
  refine ⟨by norm_num, by norm_num [CustomLosses.oneSub], by simp, by simp⟩

/-- C6 (amended): for every half-window size and every tensor whose
reference MSE is nonzero (i.e. the smoothed field is not identically zero),
the FSS loss at identical target and prediction is exactly 0 and the FSS is
exactly 1; when the reference MSE is zero both results are NaN (0/0). -/
theorem fss_round_trip {k E M N : ℕ} (t : Fin E → Fin M → Fin N → ℚ)
    (hM : 2 * k + 1 ≤ M) (hN : 2 * k + 1 ≤ N) (hE : 0 < E)
    (hr : CustomLosses.reference_mse k t t ≠ 0) :
    CustomLosses.fractions_skill_score k true t t = CustomLosses.Flt.fin 0 ∧
    CustomLosses.fractions_skill_score k false t t = CustomLosses.Flt.fin 1 := by
  have hactual : CustomLosses.actual_mse k t t = 0 := by
    unfold CustomLosses.actual_mse CustomLosses.meanAll
    simp
  have hdiv : CustomLosses.fdiv (CustomLosses.actual_mse k t t)
      (CustomLosses.reference_mse k t t) = CustomLosses.Flt.fin 0 := by
    rw [hactual]
    unfold CustomLosses.fdiv
    rw [if_neg hr]
    simp
  constructor
  · unfold CustomLosses.fractions_skill_score
    rw [if_pos rfl]
    exact hdiv
  · unfold CustomLosses.fractions_skill_score
    rw [if_neg Bool.false_ne_true, hdiv]
    unfold CustomLosses.oneSub
    norm_num

/-- Witness for C6 (amended): the round trip applied at the constant-one
1×1×1 tensor, where the reference MSE is 2. -/
theorem fss_round_trip_witness :
    CustomLosses.reference_mse 0 (fun (_ : Fin 1) (_ : Fin 1) (_ : Fin 1) => (1 : ℚ))
        (fun _ _ _ => 1) ≠ 0 ∧
    CustomLosses.fractions_skill_score 0 true
        (fun (_ : Fin 1) (_ : Fin 1) (_ : Fin 1) => (1 : ℚ)) (fun _ _ _ => 1) =
      CustomLosses.Flt.fin 0 := by
  have hr : CustomLosses.reference_mse 0
      (fun (_ : Fin 1) (_ : Fin 1) (_ : Fin 1) => (1 : ℚ)) (fun _ _ _ => 1) = 2 := by
    unfold CustomLosses.reference_mse CustomLosses.meanAll CustomLosses.smoothedField
      CustomLosses.tGet CustomLosses.meanFilterWeight
    norm_num [Finset.filter_eq']
  have hr' : CustomLosses.reference_mse 0
      (fun (_ : Fin 1) (_ : Fin 1) (_ : Fin 1) => (1 : ℚ)) (fun _ _ _ => 1) ≠ 0 := by
    rw [hr]
    norm_num
  exact ⟨hr',
    (fss_round_trip (fun (_ : Fin 1) (_ : Fin 1) (_ : Fin 1) => (1 : ℚ))
      (by decide) (by decide) (by decide) hr').1⟩


namespace NeuralNet

/-! ## Embedding of `apply_model` / `_check_inference_args`
(`ml4convection/machine_learning/neural_net.py`)

The trained network is abstracted as a deterministic per-example function
`f` (the claim's assumption on `model_object.predict`); a predictor matrix
with `E` examples is `pred : Fin E → α`.  The assembled forecast array is a
`Fin E → Option ℚ` (`none` models the `numpy.full(..., nan)`
initialisation), paired with a per-index write counter. -/

/-- `_check_inference_args`: `None` means all examples, otherwise the batch
size is clamped to the number of examples (`min`).  The integer ≥ 1 check on
a supplied batch size is the `validBatchArg` predicate below. -/
def _check_inference_args (numExamples : ℕ) (numExamplesPerBatch : Option ℕ) : ℕ :=
  match numExamplesPerBatch with
  | none => numExamples
  | some b => min b numExamples

/-- A batch-size argument accepted by `_check_inference_args`. -/
def validBatchArg : Option ℕ → Prop
  | none => True
  | some b => 1 ≤ b

/-- One iteration of the `apply_model` loop: write `f (pred j)` (the chunk's
`model.predict` output) into every index of `[lo, hi]` and bump those
indices' write counters. -/
def writeChunk {α : Type} {E : ℕ} (f : α → ℚ) (pred : Fin E → α) (lo hi : ℕ)
    (acc : (Fin E → Option ℚ) × (Fin E → ℕ)) : (Fin E → Option ℚ) × (Fin E → ℕ) :=
  (fun j => if lo ≤ j.val ∧ j.val ≤ hi then some (f (pred j)) else acc.1 j,
   fun j => if lo ≤ j.val ∧ j.val ≤ hi then acc.2 j + 1 else acc.2 j)

/-- `range(0, num_examples, num_examples_per_batch)`. -/
def chunkStarts (E B : ℕ) : List ℕ := (List.range E).filter fun i => i % B == 0

/-- `apply_model`: resolve the effective batch size, then iterate over
contiguous chunks `[i, min(i + B - 1, E - 1)]`, assembling the forecast
array; the second component counts how many chunks wrote to each index. -/
def apply_model {α : Type} {E : ℕ} (f : α → ℚ) (pred : Fin E → α)
    (numExamplesPerBatch : Option ℕ) : (Fin E → Option ℚ) × (Fin E → ℕ) :=
  let B := _check_inference_args E numExamplesPerBatch
  (chunkStarts E B).foldl
    (fun acc i => writeChunk f pred i (min (i + B - 1) (E - 1)) acc)
    (fun _ => none, fun _ => 0)

theorem foldl_writeChunk_spec {α : Type} {E : ℕ} (f : α → ℚ) (pred : Fin E → α)
    (B : ℕ) (j : Fin E) :
    ∀ (l : List ℕ) (acc : (Fin E → Option ℚ) × (Fin E → ℕ)),
      ((l.foldl (fun acc i => writeChunk f pred i (min (i + B - 1) (E - 1)) acc) acc).1 j =
        if ∃ s ∈ l, s ≤ j.val ∧ j.val ≤ min (s + B - 1) (E - 1) then
          some (f (pred j)) else acc.1 j) ∧
      ((l.foldl (fun acc i => writeChunk f pred i (min (i + B - 1) (E - 1)) acc) acc).2 j =
        acc.2 j + l.countP fun s => decide (s ≤ j.val ∧ j.val ≤ min (s + B - 1) (E - 1))) := by
  intro l
  induction l with
  | nil =>
    intro acc
    constructor
    · rw [List.foldl_nil, if_neg]
      rintro ⟨s, hs, -⟩
      cases hs
    · rw [List.foldl_nil, List.countP_nil]
      omega
  | cons s rest ih =>
    intro acc
    obtain ⟨ih1, ih2⟩ := ih (writeChunk f pred s (min (s + B - 1) (E - 1)) acc)
    have hstep1 : (writeChunk f pred s (min (s + B - 1) (E - 1)) acc).1 j =
        if s ≤ j.val ∧ j.val ≤ min (s + B - 1) (E - 1) then some (f (pred j)) else acc.1 j := rfl
    have hstep2 : (writeChunk f pred s (min (s + B - 1) (E - 1)) acc).2 j =
        if s ≤ j.val ∧ j.val ≤ min (s + B - 1) (E - 1) then acc.2 j + 1 else acc.2 j := rfl
    constructor
    · rw [List.foldl_cons, ih1, hstep1]
      by_cases hc : s ≤ j.val ∧ j.val ≤ min (s + B - 1) (E - 1)
      · by_cases hr : ∃ x ∈ rest, x ≤ j.val ∧ j.val ≤ min (x + B - 1) (E - 1)
        · rw [if_pos hr, if_pos ⟨s, List.mem_cons_self _ _, hc⟩]
        · rw [if_neg hr, if_pos hc, if_pos ⟨s, List.mem_cons_self _ _, hc⟩]
      · by_cases hr : ∃ x ∈ rest, x ≤ j.val ∧ j.val ≤ min (x + B - 1) (E - 1)
        · obtain ⟨x, hx, hx'⟩ := hr
          rw [if_pos ⟨x, hx, hx'⟩, if_pos ⟨x, List.mem_cons_of_mem _ hx, hx'⟩]
        · rw [if_neg hr, if_neg hc, if_neg]
          rintro ⟨x, hx, hx'⟩
          rcases List.mem_cons.mp hx with h | h
          · exact hc (h ▸ hx')
          · exact hr ⟨x, h, hx'⟩
    · rw [List.foldl_cons, ih2, hstep2, List.countP_cons]
      by_cases hc : s ≤ j.val ∧ j.val ≤ min (s + B - 1) (E - 1)
      · simp only [if_pos hc, decide_eq_true hc, if_true]
        omega
      · rw [if_neg hc, decide_eq_false hc]
        simp only [Bool.false_eq_true, if_false]
        omega

theorem nodup_eq_singleton {l : List ℕ} {a : ℕ} (hd : l.Nodup)
    (hall : ∀ x ∈ l, x = a) (hmem : a ∈ l) : l = [a] := by
  cases l with
  | nil => cases hmem
  | cons b t =>
    have hb : b = a := hall b (List.mem_cons_self _ _)
    subst hb
    have ht : t = [] := by
      cases t with
      | nil => rfl
      | cons c u =>
        have hc : c = b := hall c (List.mem_cons_of_mem _ (List.mem_cons_self _ _))
        subst hc
        exact absurd (List.mem_cons_self _ _) (List.nodup_cons.mp hd).1
    rw [ht]

theorem chunk_filter_eq {E B : ℕ} (hB : 1 ≤ B) (j : Fin E) :
    ((chunkStarts E B).filter fun s =>
      decide (s ≤ j.val ∧ j.val ≤ min (s + B - 1) (E - 1))) = [B * (j.val / B)] := by
  have hjE : j.val < E := j.isLt
  have hmod := Nat.div_add_mod j.val B
  have hmodlt : j.val % B < B := Nat.mod_lt _ (by omega)
  refine nodup_eq_singleton ((List.nodup_range E).filter _ |>.filter _) ?_ ?_
  · intro x hx
    simp only [List.mem_filter, chunkStarts, List.mem_range, beq_iff_eq,
      decide_eq_true_eq] at hx
    obtain ⟨⟨hxE, hxmod⟩, hxle, hxge⟩ := hx
    have hxdm := Nat.div_add_mod x B
    have hxx : B * (x / B) = x := by omega
    have h1 : (x / B) * B ≤ j.val := by
      rw [Nat.mul_comm]
      omega
    have h2 : j.val < (x / B + 1) * B := by
      have hexp : (x / B + 1) * B = B * (x / B) + B := by ring
      omega
    have hdiv : j.val / B = x / B := Nat.div_eq_of_lt_le h1 h2
    rw [hdiv, hxx]
  · have hle : B * (j.val / B) ≤ j.val := by omega
    have hs0E : B * (j.val / B) < E := lt_of_le_of_lt hle hjE
    have hge1 : j.val ≤ B * (j.val / B) + B - 1 := by omega
    have hge2 : j.val ≤ E - 1 := by omega
    simp only [List.mem_filter, chunkStarts, List.mem_range, beq_iff_eq,
      decide_eq_true_eq]
    exact ⟨⟨hs0E, Nat.mul_mod_right _ _⟩, hle, le_min hge1 hge2⟩

end NeuralNet

/-- C7: `apply_model` is batch-invariant.  Assuming the model's `predict` is
a deterministic per-example function `f`, every example index is written
exactly once (by the chunk containing it) with value `f (pred j)`, so the
assembled probability array is independent of the valid batch-size argument
(`None`, or any integer ≥ 1). -/
theorem apply_model_batch_invariant {α : Type} {E : ℕ} (hE : 0 < E)
    (f : α → ℚ) (pred : Fin E → α) (B₁ B₂ : Option ℕ)
    (h₁ : NeuralNet.validBatchArg B₁) (h₂ : NeuralNet.validBatchArg B₂) :
    (∀ j, (NeuralNet.apply_model f pred B₁).1 j = some (f (pred j)) ∧
          (NeuralNet.apply_model f pred B₁).2 j = 1) ∧
    (NeuralNet.apply_model f pred B₁).1 = (NeuralNet.apply_model f pred B₂).1 := by
  have main : ∀ (B : Option ℕ), NeuralNet.validBatchArg B →
      ∀ j, (NeuralNet.apply_model f pred B).1 j = some (f (pred j)) ∧
           (NeuralNet.apply_model f pred B).2 j = 1 := by
    intro B hB j
    have hBeff : 1 ≤ NeuralNet._check_inference_args E B := by
      cases B with
      | none => exact hE
      | some b =>
        simp only [NeuralNet._check_inference_args, le_min_iff]
        exact ⟨hB, hE⟩
    obtain ⟨hv, hcnt⟩ := NeuralNet.foldl_writeChunk_spec f pred
      (NeuralNet._check_inference_args E B) j
      (NeuralNet.chunkStarts E (NeuralNet._check_inference_args E B))
      (fun _ => none, fun _ => 0)
    have hfe := NeuralNet.chunk_filter_eq (E := E) hBeff j
    constructor
    · rw [NeuralNet.apply_model, hv, if_pos]
      have hmem : NeuralNet._check_inference_args E B * (j.val / NeuralNet._check_inference_args E B) ∈
          (NeuralNet.chunkStarts E (NeuralNet._check_inference_args E B)).filter fun s =>
            decide (s ≤ j.val ∧ j.val ≤
              min (s + NeuralNet._check_inference_args E B - 1) (E - 1)) := by
        rw [hfe]
        exact List.mem_singleton.mpr rfl
      obtain ⟨hmem', hcond⟩ := List.mem_filter.mp hmem
      exact ⟨_, hmem', of_decide_eq_true hcond⟩
    · rw [NeuralNet.apply_model, hcnt, List.countP_eq_length_filter, hfe]
      rfl
  refine ⟨main B₁ h₁, funext fun j => ?_⟩
  rw [(main B₁ h₁ j).1, (main B₂ h₂ j).1]

/-- Witness for C7: batch invariance applied at a concrete 3-example array
with batch sizes 2 and `None`. -/
theorem apply_model_batch_invariant_witness :
    0 < 3 ∧
    (NeuralNet.apply_model (fun q : ℚ => q + 1) (fun j : Fin 3 => (j : ℚ)) (some 2)).1 =
      (NeuralNet.apply_model (fun q : ℚ => q + 1) (fun j : Fin 3 => (j : ℚ)) none).1 :=
  ⟨by decide,
    (apply_model_batch_invariant (by decide) (fun q : ℚ => q + 1)
      (fun j : Fin 3 => (j : ℚ)) (some 2) none (by exact one_le_two) trivial).2⟩

namespace NeuralNet

/-! ## Embedding of `_check_generator_args`

Option values are Python numbers (`int` or `float` — the vendored
`error_checking.assert_is_integer` distinguishes them) or numpy arrays, of
which only the properties the checks inspect are modelled (dimension count,
integer dtype).  A key absent from the input dictionary and without a
default (only `lead_time_seconds`) raises a `KeyError` on access, which is
distinct from the error-checking layer's `InvalidInput`. -/

/-- A Python numeric argument value. -/
inductive PyNum where
  | int (n : ℤ)
  | float (q : ℚ)
deriving DecidableEq

/-- The numeric value of a `PyNum`. -/
def numValue : PyNum → ℚ
  | .int n => (n : ℚ)
  | .float q => q

/-- `error_checking.assert_is_integer` succeeds exactly on `int`s. -/
def isInt : PyNum → Bool
  | .int _ => true
  | .float _ => false

/-- A numpy-array argument, abstracted to the properties checked:
dimension count and integer dtype. -/
structure PyArr where
  ndims : ℕ
  isInteger : Bool
deriving DecidableEq

/-- Modelled from the spec: `satellite_io.BAND_NUMBERS` (the vendored
satellite-I/O module is not in the sources), the default band-number
array — "all available satellite bands", a 1-D integer array. -/
def BAND_NUMBERS : PyArr := ⟨1, true⟩

/-- The caller's generator option dictionary: each key either present with a
value or absent. -/
structure GenOptionsIn where
  bandNumbers : Option PyArr
  batchSize : Option PyNum
  dsFactor : Option PyNum
  maxDaily : Option PyNum
  leadTime : Option PyNum
  reflThreshold : Option PyNum
deriving DecidableEq

/-- The merged dictionary after `DEFAULT_GENERATOR_OPTION_DICT.copy();
update(orig_option_dict)`: defaults are downsampling factor 1, batch size
256, max daily examples 64, `BAND_NUMBERS`, reflectivity threshold 35.0;
`lead_time_seconds` has no default. -/
structure GenOptions where
  bandNumbers : PyArr
  batchSize : PyNum
  dsFactor : PyNum
  maxDaily : PyNum
  leadTime : Option PyNum
  reflThreshold : PyNum
deriving DecidableEq

def mergeDefaults (o : GenOptionsIn) : GenOptions where
  bandNumbers := o.bandNumbers.getD BAND_NUMBERS
  batchSize := o.batchSize.getD (.int 256)
  dsFactor := o.dsFactor.getD (.int 1)
  maxDaily := o.maxDaily.getD (.int 64)
  leadTime := o.leadTime
  reflThreshold := o.reflThreshold.getD (.float 35)

/-- The two error kinds observable from `_check_generator_args`. -/
inductive Err where
  | invalidInput
  | keyError
deriving DecidableEq

/-- The lead-time and reflectivity-threshold asserts of
`_check_generator_args` (each `error_checking` assert continues on success
and raises `InvalidInput` on failure). -/
def checkLeadAndRefl (m : GenOptions) (lt : PyNum) : Except Err GenOptions :=
  if isInt lt then
    if 0 ≤ numValue lt then
      if numValue lt < 86400 then
        if 0 < numValue m.reflThreshold then .ok m
        else .error .invalidInput
      else .error .invalidInput
    else .error .invalidInput
  else .error .invalidInput

/-- The `error_checking` asserts of `_check_generator_args` in source order
on the merged dictionary; accessing the missing `lead_time_seconds` key
raises `KeyError`. -/
def checkMergedGeneratorArgs (m : GenOptions) : Except Err GenOptions :=
  if m.bandNumbers.ndims = 1 then
    if m.bandNumbers.isInteger then
      if isInt m.batchSize then
        if 2 ≤ numValue m.batchSize then
          if isInt m.dsFactor then
            if 1 ≤ numValue m.dsFactor then
              if isInt m.maxDaily then
                if 2 ≤ numValue m.maxDaily then
                  match m.leadTime with
                  | none => .error .keyError
                  | some lt => checkLeadAndRefl m lt
                else .error .invalidInput
              else .error .invalidInput
            else .error .invalidInput
          else .error .invalidInput
        else .error .invalidInput
      else .error .invalidInput
    else .error .invalidInput
  else .error .invalidInput

/-- `_check_generator_args`: merge caller overrides onto the defaults, then
validate. -/
def _check_generator_args (o : GenOptionsIn) : Except Err GenOptions :=
  checkMergedGeneratorArgs (mergeDefaults o)

end NeuralNet

theorem checkLeadAndRefl_ok_iff (m : NeuralNet.GenOptions) (lt : NeuralNet.PyNum)
    (r : NeuralNet.GenOptions) :
    NeuralNet.checkLeadAndRefl m lt = Except.ok r ↔
      (r = m ∧ NeuralNet.isInt lt = true ∧ 0 ≤ NeuralNet.numValue lt ∧
        NeuralNet.numValue lt < 86400 ∧
        0 < NeuralNet.numValue m.reflThreshold) := by
  unfold NeuralNet.checkLeadAndRefl
  rcases Decidable.em (NeuralNet.isInt lt = true) with h1 | h1
  · rw [if_pos h1]
    rcases Decidable.em (0 ≤ NeuralNet.numValue lt) with h2 | h2
    · rw [if_pos h2]
      rcases Decidable.em (NeuralNet.numValue lt < 86400) with h3 | h3
      · rw [if_pos h3]
        rcases Decidable.em (0 < NeuralNet.numValue m.reflThreshold) with h4 | h4
        · rw [if_pos h4]
          constructor
          · intro h
            exact ⟨(Except.ok.inj h).symm, h1, h2, h3, h4⟩
          · rintro ⟨hr, -, -, -, -⟩
            rw [hr]
        · rw [if_neg h4]
          exact ⟨fun h => Except.noConfusion h, fun ⟨_, _, _, _, h⟩ => absurd h h4⟩
      · rw [if_neg h3]
        exact ⟨fun h => Except.noConfusion h, fun ⟨_, _, _, h, _⟩ => absurd h h3⟩
    · rw [if_neg h2]
      exact ⟨fun h => Except.noConfusion h, fun ⟨_, _, h, _, _⟩ => absurd h h2⟩
  · rw [if_neg h1]
    exact ⟨fun h => Except.noConfusion h, fun ⟨_, h, _, _, _⟩ => absurd h h1⟩

theorem checkLeadAndRefl_bad (m : NeuralNet.GenOptions) (lt : NeuralNet.PyNum)
    (hbad : NeuralNet.numValue lt < 0 ∨ 86400 ≤ NeuralNet.numValue lt) :
    NeuralNet.checkLeadAndRefl m lt = Except.error NeuralNet.Err.invalidInput := by
  unfold NeuralNet.checkLeadAndRefl
  rcases Decidable.em (NeuralNet.isInt lt = true) with h1 | h1
  · rw [if_pos h1]
    rcases hbad with hb | hb
    · rw [if_neg (not_le.mpr hb)]
    · rw [if_pos (le_trans (by norm_num) hb), if_neg (not_lt.mpr hb)]
  · rw [if_neg h1]

/-- The 8 checks preceding the lead-time access, as a predicate. -/
def NeuralNet.preLeadChecks (m : NeuralNet.GenOptions) : Prop :=
  m.bandNumbers.ndims = 1 ∧ m.bandNumbers.isInteger = true ∧
  NeuralNet.isInt m.batchSize = true ∧ 2 ≤ NeuralNet.numValue m.batchSize ∧
  NeuralNet.isInt m.dsFactor = true ∧ 1 ≤ NeuralNet.numValue m.dsFactor ∧
  NeuralNet.isInt m.maxDaily = true ∧ 2 ≤ NeuralNet.numValue m.maxDaily

theorem checkMerged_cases (m : NeuralNet.GenOptions) (lt : NeuralNet.PyNum)
    (hm : m.leadTime = some lt) :
    (¬ NeuralNet.preLeadChecks m ∧
      NeuralNet.checkMergedGeneratorArgs m = Except.error NeuralNet.Err.invalidInput) ∨
    (NeuralNet.preLeadChecks m ∧
      NeuralNet.checkMergedGeneratorArgs m = NeuralNet.checkLeadAndRefl m lt) := by
  unfold NeuralNet.checkMergedGeneratorArgs NeuralNet.preLeadChecks
  rcases Decidable.em (m.bandNumbers.ndims = 1) with h1 | h1
  case inr => exact Or.inl ⟨fun hc => h1 hc.1, by rw [if_neg h1]⟩
  rw [if_pos h1]
  rcases Decidable.em (m.bandNumbers.isInteger = true) with h2 | h2
  case inr => exact Or.inl ⟨fun hc => h2 hc.2.1, by rw [if_neg h2]⟩
  rw [if_pos h2]
  rcases Decidable.em (NeuralNet.isInt m.batchSize = true) with h3 | h3
  case inr => exact Or.inl ⟨fun hc => h3 hc.2.2.1, by rw [if_neg h3]⟩
  rw [if_pos h3]
  rcases Decidable.em (2 ≤ NeuralNet.numValue m.batchSize) with h4 | h4
  case inr => exact Or.inl ⟨fun hc => h4 hc.2.2.2.1, by rw [if_neg h4]⟩
  rw [if_pos h4]
  rcases Decidable.em (NeuralNet.isInt m.dsFactor = true) with h5 | h5
  case inr => exact Or.inl ⟨fun hc => h5 hc.2.2.2.2.1, by rw [if_neg h5]⟩
  rw [if_pos h5]
  rcases Decidable.em (1 ≤ NeuralNet.numValue m.dsFactor) with h6 | h6
  case inr => exact Or.inl ⟨fun hc => h6 hc.2.2.2.2.2.1, by rw [if_neg h6]⟩
  rw [if_pos h6]
  rcases Decidable.em (NeuralNet.isInt m.maxDaily = true) with h7 | h7
  case inr => exact Or.inl ⟨fun hc => h7 hc.2.2.2.2.2.2.1, by rw [if_neg h7]⟩
  rw [if_pos h7]
  rcases Decidable.em (2 ≤ NeuralNet.numValue m.maxDaily) with h8 | h8
  case inr => exact Or.inl ⟨fun hc => h8 hc.2.2.2.2.2.2.2, by rw [if_neg h8]⟩
  rw [if_pos h8, hm]
  exact Or.inr ⟨⟨h1, h2, h3, h4, h5, h6, h7, h8⟩, rfl⟩

/-- C10: for an option dictionary that supplies the (default-less) lead
time, `_check_generator_args` returns the default-merged dictionary exactly
when, after merging, the band array is 1-D integer, batch size is an
integer ≥ 2, downsampling factor an integer ≥ 1, max daily examples an
integer ≥ 2, lead time an integer in [0, 86400) and the reflectivity
threshold > 0 — otherwise it raises `InvalidInput`; in particular every
negative lead time and every lead time ≥ 86400 is rejected with
`InvalidInput`. -/
theorem check_generator_args_accepts_iff (o : NeuralNet.GenOptionsIn)
    (lt : NeuralNet.PyNum) (hlt : o.leadTime = some lt) :
    (NeuralNet._check_generator_args o = Except.ok (NeuralNet.mergeDefaults o) ↔
      (NeuralNet.preLeadChecks (NeuralNet.mergeDefaults o) ∧
       NeuralNet.isInt lt = true ∧
       0 ≤ NeuralNet.numValue lt ∧ NeuralNet.numValue lt < 86400 ∧
       0 < NeuralNet.numValue (NeuralNet.mergeDefaults o).reflThreshold)) ∧
    (∀ r, NeuralNet._check_generator_args o = Except.ok r →
      r = NeuralNet.mergeDefaults o) ∧
    ((NeuralNet.numValue lt < 0 ∨ 86400 ≤ NeuralNet.numValue lt) →
      NeuralNet._check_generator_args o = Except.error NeuralNet.Err.invalidInput) := by
  have hm : (NeuralNet.mergeDefaults o).leadTime = some lt := hlt
  have hcases := checkMerged_cases (NeuralNet.mergeDefaults o) lt hm
  have hdef : NeuralNet._check_generator_args o =
      NeuralNet.checkMergedGeneratorArgs (NeuralNet.mergeDefaults o) := rfl
  refine ⟨⟨?_, ?_⟩, ?_, ?_⟩
  · intro h
    rw [hdef] at h
    rcases hcases with ⟨-, herr⟩ | ⟨hc8, heq⟩
    · rw [herr] at h
      exact Except.noConfusion h
    · rw [heq] at h
      obtain ⟨-, hrest⟩ := (checkLeadAndRefl_ok_iff _ _ _).mp h
      exact ⟨hc8, hrest⟩
  · rintro ⟨hc8, h9, h10, h11, h12⟩
    rw [hdef]
    rcases hcases with ⟨hnc, -⟩ | ⟨-, heq⟩
    · exact absurd hc8 hnc
    · rw [heq]
      exact (checkLeadAndRefl_ok_iff _ _ _).mpr ⟨rfl, h9, h10, h11, h12⟩
  · intro r hr
    rw [hdef] at hr
    rcases hcases with ⟨-, herr⟩ | ⟨-, heq⟩
    · rw [herr] at hr
      exact Except.noConfusion hr
    · rw [heq] at hr
      exact ((checkLeadAndRefl_ok_iff _ _ _).mp hr).1
  · intro hbad
    rw [hdef]
    rcases hcases with ⟨-, herr⟩ | ⟨-, heq⟩
    · exact herr
    · rw [heq]
      exact checkLeadAndRefl_bad _ _ hbad

/-- Witness for C10: a dictionary supplying only a 600-second lead time is
accepted with all defaults merged. -/
theorem check_generator_args_accepts_iff_witness :
    NeuralNet._check_generator_args
        ⟨none, none, none, none, some (NeuralNet.PyNum.int 600), none⟩ =
      Except.ok (NeuralNet.mergeDefaults
        ⟨none, none, none, none, some (NeuralNet.PyNum.int 600), none⟩) :=
  (check_generator_args_accepts_iff
    ⟨none, none, none, none, some (NeuralNet.PyNum.int 600), none⟩
    (NeuralNet.PyNum.int 600) rfl).1.mpr
    (by
      constructor
      · exact ⟨rfl, rfl, rfl, by decide, rfl, by decide, rfl, by decide⟩
      · exact ⟨rfl, by decide, by decide, by decide⟩)

namespace NeuralNet

/-! ## Embedding of the one-day example-selection logic
(`_read_raw_inputs_one_day` / `_read_preprocessed_inputs_one_day`)

A per-day data dictionary is reduced to its valid-time list plus a per-time
field (`ℤ → ℚ`, one scalar standing for the day's predictor or target grid
at that time).  Coordinate checks, per-day random subsampling, spatial
downsampling and normalization do not move data between times and are not
modelled. -/

/-- Modelled from the spec: `subset_by_time` of the I/O modules
(`radar_io` / `satellite_io` are vendored; `example_io` is absent from the
sources) — "subset a loaded dictionary by time": returns the entries at the
desired times, in order. -/
def subset_by_time (field : ℤ → ℚ) (desiredTimes : List ℤ) : List ℚ :=
  desiredTimes.map field

/-- `_read_raw_inputs_one_day`, time-selection core: valid times are the
radar times whose initialization time (valid − lead) has satellite data;
the satellite dictionary is subset by the init times and the radar
dictionary by the valid times.  Returns (valid times, predictor values,
target values). -/
def _read_raw_inputs_one_day (satTimes radarTimes : List ℤ)
    (satField radarField : ℤ → ℚ) (leadTime : ℤ) :
    List ℤ × List ℚ × List ℚ :=
  let validTimes := radarTimes.filter fun t => decide ((t - leadTime) ∈ satTimes)
  let initTimes := validTimes.map fun t => t - leadTime
  (validTimes, subset_by_time satField initTimes, subset_by_time radarField validTimes)

/-- `_read_preprocessed_inputs_one_day`, time-selection core: valid times
are the target times whose init time has predictor data; the predictor
dictionary is subset by the init times and — as in the source
(`example_io.subset_by_time(target_dict=..., desired_times_unix_sec=
init_times_unix_sec)`) — the target dictionary is subset by the *init*
times as well. -/
def _read_preprocessed_inputs_one_day (predTimes targetTimes : List ℤ)
    (predField targetField : ℤ → ℚ) (leadTime : ℤ) :
    List ℤ × List ℚ × List ℚ :=
  let validTimes := targetTimes.filter fun t => decide ((t - leadTime) ∈ predTimes)
  let initTimes := validTimes.map fun t => t - leadTime
  (validTimes, subset_by_time predField initTimes, subset_by_time targetField initTimes)

end NeuralNet

/-- C2 divergence: with lead time 600 s, target times {0, 600} and predictor
times {0, 600} (field values equal to their own time), the raw pathway
returns the target at the valid time 600 while the preprocessed pathway
returns the target at the initialization time 0. -/
theorem preprocessed_pathway_targets_at_init_times :
    (NeuralNet._read_raw_inputs_one_day [0, 600] [0, 600]
      (fun t => (t : ℚ)) (fun t => (t : ℚ)) 600).2.2 = [(600 : ℚ)] ∧
    (NeuralNet._read_preprocessed_inputs_one_day [0, 600] [0, 600]
      (fun t => (t : ℚ)) (fun t => (t : ℚ)) 600).2.2 = [(0 : ℚ)] ∧
    (600 : ℚ) ≠ 0 := by
  refine ⟨rfl, rfl, by norm_num⟩

namespace ExampleIoTest

/-! ## The documented 6×4 downsampling example
(`ml4convection/io/example_io_test.py`)

The fixtures are the authoritative record of `downsample_data_in_space`'s
behaviour (the `example_io` module itself is not among the sources; its
unit test is). -/

/-- Guarded 2-D access (always in bounds at block indices). -/
def mGet {M N : ℕ} (f : Fin M → Fin N → ℚ) (i j : ℕ) : ℚ :=
  if h : i < M ∧ j < N then f ⟨i, h.1⟩ ⟨j, h.2⟩ else 0

/-- Guarded 1-D access. -/
def vGet {M : ℕ} (f : Fin M → ℚ) (i : ℕ) : ℚ :=
  if h : i < M then f ⟨i, h⟩ else 0

/-- Mean over each F×F block (the claim's reading of the downsampling of
every field; dropping the leftover rows/columns when F does not divide the
dimension). -/
def blockMean (F : ℕ) {M N : ℕ} (f : Fin M → Fin N → ℚ)
    (i : Fin (M / F)) (j : Fin (N / F)) : ℚ :=
  ((List.range F).map fun a =>
    ((List.range F).map fun b => mGet f (i.val * F + a) (j.val * F + b)).sum).sum
    / ((F : ℚ) * F)

/-- Maximum over each F×F block. -/
def blockMax (F : ℕ) {M N : ℕ} (f : Fin M → Fin N → ℚ)
    (i : Fin (M / F)) (j : Fin (N / F)) : ℚ :=
  Np.npMax ((List.range F).flatMap fun a =>
    (List.range F).map fun b => mGet f (i.val * F + a) (j.val * F + b))

/-- Mean of each length-F block of a coordinate axis. -/
def coordBlockMean (F : ℕ) {M : ℕ} (f : Fin M → ℚ) (i : Fin (M / F)) : ℚ :=
  ((List.range F).map fun a => vGet f (i.val * F + a)).sum / (F : ℚ)

/-- `TEMP_MATRIX_BAND8_EXAMPLE1_KELVINS` (the 6×4 input). -/
def TEMP_MATRIX_BAND8_EXAMPLE1_KELVINS : Fin 6 → Fin 4 → ℚ :=
  ![![200, 210, 220, 230],
    ![210, 220, 230, 240],
    ![220, 230, 240, 250],
    ![230, 240, 250, 260],
    ![250, 260, 270, 280],
    ![290, 300, 310, 320]]

/-- `REFL_MATRIX_EXAMPLE1_DBZ` (the 6×4 input). -/
def REFL_MATRIX_EXAMPLE1_DBZ : Fin 6 → Fin 4 → ℚ :=
  ![![10, 20, 30, 40],
    ![20, 30, 40, 50],
    ![30, 40, 50, 60],
    ![40, 50, 60, 70],
    ![50, 60, 70, 80],
    ![60, 40, 20, 0]]

/-- `LATITUDES_DEG_N` (input). -/
def LATITUDES_DEG_N : Fin 6 → ℚ := ![53, 53.2, 53.4, 53.6, 53.8, 54]

/-- `LONGITUDES_DEG_E` (input). -/
def LONGITUDES_DEG_E : Fin 4 → ℚ := ![246, 246.5, 247, 247.5]

/-- The factor-2 expected band-8 temperatures (3×2). -/
def TEMP_DOWNSAMPLED2 : Fin 3 → Fin 2 → ℚ := ![![210, 230], ![230, 250], ![275, 295]]

/-- The factor-2 expected reflectivities (3×2). -/
def REFL_DOWNSAMPLED2 : Fin 3 → Fin 2 → ℚ := ![![30, 50], ![50, 70], ![60, 80]]

/-- The factor-2 expected latitudes. -/
def LATITUDES_DOWNSAMPLED2 : Fin 3 → ℚ := ![53.1, 53.5, 53.9]

/-- The factor-2 expected longitudes. -/
def LONGITUDES_DOWNSAMPLED2 : Fin 2 → ℚ := ![246.25, 247.25]

/-- The factor-4 expected band-8 temperature (1×1). -/
def TEMP_DOWNSAMPLED4 : ℚ := 230

/-- The factor-4 expected reflectivity (1×1). -/
def REFL_DOWNSAMPLED4 : ℚ := 70

/-- The factor-4 expected latitude. -/
def LATITUDE_DOWNSAMPLED4 : ℚ := 53.3

/-- The factor-4 expected longitude. -/
def LONGITUDE_DOWNSAMPLED4 : ℚ := 246.75

end ExampleIoTest

set_option maxRecDepth 4000 in
/-- C3 counterexample: the documented factor-2 output reflectivity at block
(0,0) is 30, not the 2×2 block average 20 (the reflectivity field is
reduced by block maximum, not average), and the documented factor-4
latitude is 53.3 — the centre of the first four rows — not the whole
domain's midpoint 53.5, while the documented factor-4 temperature is 230,
not the full 6×4-domain average 745/3. -/
theorem downsample_block_average_counterexample :
    ExampleIoTest.blockMean 2 ExampleIoTest.REFL_MATRIX_EXAMPLE1_DBZ 0 0 = 20 ∧
    ExampleIoTest.REFL_DOWNSAMPLED2 0 0 = 30 ∧ (20 : ℚ) ≠ 30 ∧
    ExampleIoTest.LATITUDE_DOWNSAMPLED4 = 53.3 ∧
    (ExampleIoTest.LATITUDES_DEG_N 0 + ExampleIoTest.LATITUDES_DEG_N 5) / 2 = 53.5 ∧
    ((53.3 : ℚ)) ≠ 53.5 ∧
    ExampleIoTest.TEMP_DOWNSAMPLED4 = 230 ∧
    ((List.range 6).map fun a =>
      ((List.range 4).map fun b =>
        ExampleIoTest.mGet ExampleIoTest.TEMP_MATRIX_BAND8_EXAMPLE1_KELVINS a b).sum).sum
      / 24 = 745 / 3 ∧
    (230 : ℚ) ≠ 745 / 3 := by
  with_unfolding_all decide

set_option maxRecDepth 4000 in
/-- C3 (amended): on the documented 6×4 grid, factor 2 yields the 3×2
fixtures with temperatures equal to 2×2 block averages, reflectivities
equal to 2×2 block maxima, and coordinates equal to the block (midpoint)
means; factor 4 yields the 1×1 fixtures taken over the single 4×4 block
(the two leftover rows are dropped): temperature the block average,
reflectivity the block maximum, coordinates the means of the first four
latitudes/longitudes. -/
theorem downsample_matches_fixtures :
    (∀ i j, ExampleIoTest.TEMP_DOWNSAMPLED2 i j =
      ExampleIoTest.blockMean 2 ExampleIoTest.TEMP_MATRIX_BAND8_EXAMPLE1_KELVINS i j) ∧
    (∀ i j, ExampleIoTest.REFL_DOWNSAMPLED2 i j =
      ExampleIoTest.blockMax 2 ExampleIoTest.REFL_MATRIX_EXAMPLE1_DBZ i j) ∧
    (∀ i, ExampleIoTest.LATITUDES_DOWNSAMPLED2 i =
      ExampleIoTest.coordBlockMean 2 ExampleIoTest.LATITUDES_DEG_N i) ∧
    (∀ j, ExampleIoTest.LONGITUDES_DOWNSAMPLED2 j =
      ExampleIoTest.coordBlockMean 2 ExampleIoTest.LONGITUDES_DEG_E j) ∧
    (∀ i j, ExampleIoTest.TEMP_DOWNSAMPLED4 =
      ExampleIoTest.blockMean 4 ExampleIoTest.TEMP_MATRIX_BAND8_EXAMPLE1_KELVINS i j) ∧
    (∀ i j, ExampleIoTest.REFL_DOWNSAMPLED4 =
      ExampleIoTest.blockMax 4 ExampleIoTest.REFL_MATRIX_EXAMPLE1_DBZ i j) ∧
    (∀ i, ExampleIoTest.LATITUDE_DOWNSAMPLED4 =
      ExampleIoTest.coordBlockMean 4 ExampleIoTest.LATITUDES_DEG_N i) ∧
    (∀ j, ExampleIoTest.LONGITUDE_DOWNSAMPLED4 =
      ExampleIoTest.coordBlockMean 4 ExampleIoTest.LONGITUDES_DEG_E j) := by
  with_unfolding_all decide

namespace Np

/-- `numpy.min` of a list (same convention as `npMax`). -/
def npMin (l : List ℚ) : ℚ := l.foldr min (l.headD 0)

end Np

namespace EchoClassification

/-! ## Embedding of `_neigh_metres_to_rowcol` and criterion 1

The float cosine routine (`numpy.cos(numpy.deg2rad(·))`) is a transcendental
external operation; it is passed in as a parameter `cosDeg : ℚ → ℚ` (the
cosine of an angle given in degrees), and theorems certify separately, with
`Real.cos`, the bounds the relevant cosine values satisfy. -/

/-- `DEGREES_LAT_TO_METRES = 60 * 1852`. -/
def DEGREES_LAT_TO_METRES : ℚ := 60 * 1852

/-- `_neigh_metres_to_rowcol`: rows from the latitude spacing, columns from
the longitude spacing scaled by the cosine of
`(max(latitudes) - min(latitudes)) / 2` (the source's `mean_latitude_deg`). -/
def _neigh_metres_to_rowcol (cosDeg : ℚ → ℚ) (neighRadiusMetres : ℚ)
    (latitudeSpacingDeg longitudeSpacingDeg : ℚ) (latitudesDeg : List ℚ) : ℤ × ℤ :=
  let ySpacingMetres := latitudeSpacingDeg * DEGREES_LAT_TO_METRES
  let numRows := 1 + 2 * ⌈neighRadiusMetres / ySpacingMetres⌉
  let meanLatitudeDeg := (Np.npMax latitudesDeg - Np.npMin latitudesDeg) / 2
  let meanXSpacingMetres :=
    longitudeSpacingDeg * DEGREES_LAT_TO_METRES * cosDeg meanLatitudeDeg
  let numColumns := 1 + 2 * ⌈neighRadiusMetres / meanXSpacingMetres⌉
  (numRows, numColumns)

/-- Mean of a list of coordinates. -/
def listMean (l : List ℚ) : ℚ := l.sum / (l.length : ℚ)

/-- Stated from the claim: the window column count computed with the cosine
of the MEAN of the grid-point latitudes (for an equally spaced grid,
`(max + min) / 2`), to be compared with the source's formula. -/
def claim_num_columns_mean_latitude (cosDeg : ℚ → ℚ) (neighRadiusMetres : ℚ)
    (longitudeSpacingDeg : ℚ) (latitudesDeg : List ℚ) : ℤ :=
  1 + 2 * ⌈neighRadiusMetres /
    (longitudeSpacingDeg * DEGREES_LAT_TO_METRES * cosDeg (listMean latitudesDeg))⌉

end EchoClassification

/-- C4: on the grid with latitudes {59°, 61°}, longitude spacing 0.01° and
radius 12000 m, the source computes `cos((max−min)/2) = cos(1°)` — any
cosine value in (0.999, 1], which the real cos(1°) = cos(π/180) is — giving
23 window columns, while the claim's formula uses the mean latitude 60°,
whose cosine is exactly 1/2, giving 45 columns. -/
theorem neigh_metres_to_rowcol_mean_latitude_bug :
    (∀ c : ℚ, 999 / 1000 < c → c ≤ 1 →
      (EchoClassification._neigh_metres_to_rowcol (fun _ => c) 12000 2 (1 / 100)
        [59, 61]).2 = 23) ∧
    (∀ cosDeg : ℚ → ℚ, cosDeg 60 = 1 / 2 →
      EchoClassification.claim_num_columns_mean_latitude cosDeg 12000 (1 / 100)
        [59, 61] = 45) ∧
    ((999 / 1000 : ℝ) < Real.cos (Real.pi / 180) ∧ Real.cos (Real.pi / 180) ≤ 1) ∧
    Real.cos (Real.pi / 3) = 1 / 2 := by
  refine ⟨?_, ?_, ⟨?_, Real.cos_le_one _⟩, Real.cos_pi_div_three⟩
  · intro c hc1 hc2
    have hmean : (Np.npMax [59, 61] - Np.npMin [59, 61]) / 2 = (1 : ℚ) := by
      norm_num [Np.npMax, Np.npMin]
    simp only [EchoClassification._neigh_metres_to_rowcol, hmean]
    have hpos : (0 : ℚ) < 1 / 100 * EchoClassification.DEGREES_LAT_TO_METRES * c := by
      unfold EchoClassification.DEGREES_LAT_TO_METRES
      nlinarith
    have hceil : ⌈(12000 : ℚ) / (1 / 100 * EchoClassification.DEGREES_LAT_TO_METRES * c)⌉
        = 11 := by
      rw [Int.ceil_eq_iff]
      unfold EchoClassification.DEGREES_LAT_TO_METRES
      unfold EchoClassification.DEGREES_LAT_TO_METRES at hpos
      constructor
      · rw [lt_div_iff₀ hpos]
        push_cast
        nlinarith
      · rw [div_le_iff₀ hpos]
        push_cast
        nlinarith
    rw [hceil]
    norm_num
  · intro cosDeg hcos
    have hmean : EchoClassification.listMean [59, 61] = 60 := by
      norm_num [EchoClassification.listMean]
    unfold EchoClassification.claim_num_columns_mean_latitude
    rw [hmean, hcos]
    have hceil : ⌈(12000 : ℚ) /
        (1 / 100 * EchoClassification.DEGREES_LAT_TO_METRES * (1 / 2))⌉ = 22 := by
      rw [Int.ceil_eq_iff]
      unfold EchoClassification.DEGREES_LAT_TO_METRES
      norm_num
    rw [hceil]
    norm_num
  · have hb := Real.one_sub_sq_div_two_le_cos (x := Real.pi / 180)
    have hπ := Real.pi_lt_d2
    have hπ0 := Real.pi_pos
    nlinarith

/-- Witness for C4: the source-side column count evaluated at the concrete
cosine value 9999/10000 (within the certified (0.999, 1] interval of the
real cos(1°)). -/
theorem neigh_metres_to_rowcol_mean_latitude_bug_witness :
    (999 / 1000 : ℚ) < 9999 / 10000 ∧
    (EchoClassification._neigh_metres_to_rowcol (fun _ => (9999 / 10000 : ℚ)) 12000 2
      (1 / 100) [59, 61]).2 = 23 :=
  ⟨by norm_num,
    neigh_metres_to_rowcol_mean_latitude_bug.1 (9999 / 10000) (by norm_num) (by norm_num)⟩

namespace EchoClassification

/-! ## Criterion 1 (`_apply_convective_criterion1`), default-resolution path

The `halve_resolution_for_peakedness=True` branch (bilinear spline
interpolation to a coarser grid and back) is third-party interpolation and
is not embedded; the default `False` path is.  The float division
`numerator / denominator` is modelled with the IEEE special values
(`CustomLosses.Flt`): 0/0 is NaN and k/0 with k > 0 is +∞. -/

/-- Insertion step for `sortAscending`. -/
def insertSorted (x : ℚ) : List ℚ → List ℚ
  | [] => [x]
  | y :: ys => if x ≤ y then x :: y :: ys else y :: insertSorted x ys

/-- Insertion sort (ascending). -/
def sortAscending : List ℚ → List ℚ
  | [] => []
  | x :: xs => insertSorted x (sortAscending xs)

/-- The window statistic of `scipy.ndimage.median_filter`: the rank-⌊n/2⌋
order statistic of the window values (for the odd-sized windows the source
always builds, the true median). -/
def npMedian (l : List ℚ) : ℚ := (sortAscending l).getD (l.length / 2) 0

/-- Zero-padded access to one height slice
(`median_filter(..., mode='constant', cval=0.)`). -/
def paddedValue {M N : ℕ} (slice : Fin M → Fin N → ℚ) (i j : ℤ) : ℚ :=
  if h : 0 ≤ i ∧ i < (M : ℤ) ∧ 0 ≤ j ∧ j < (N : ℤ) then
    slice ⟨i.toNat, by omega⟩ ⟨j.toNat, by omega⟩
  else 0

/-- `median_filter(slice, size=(numRows, numCols), mode='constant', cval=0.)`
at one pixel: the window median over the centred window. -/
def median_filter {M N : ℕ} (slice : Fin M → Fin N → ℚ) (numRows numCols : ℕ)
    (i : Fin M) (j : Fin N) : ℚ :=
  npMedian ((List.range numRows).flatMap fun a =>
    (List.range numCols).map fun b =>
      paddedValue slice ((i : ℤ) + a - (numRows / 2 : ℕ)) ((j : ℤ) + b - (numCols / 2 : ℕ)))

/-- Guarded access to a reflectivity volume by height index. -/
def rGet {M N H : ℕ} (reflectivity : Fin M → Fin N → Fin H → ℚ)
    (i : Fin M) (j : Fin N) (k : ℕ) : ℚ :=
  if h : k < H then reflectivity i j ⟨k, h⟩ else 0

/-- Guarded access to the height array. -/
def hGet {H : ℕ} (heights : Fin H → ℚ) (k : ℕ) : ℚ :=
  if h : k < H then heights ⟨k, h⟩ else 0

/-- The `max_height_index` of criterion 1: the first height index at or
above `max_peakedness_height_m_asl`, or the last index if none qualifies. -/
def maxHeightIndex {H : ℕ} (heights : Fin H → ℚ) (maxPeakednessHeight : ℚ) : ℕ :=
  ((List.range H).find? fun k => decide (hGet heights k ≥ maxPeakednessHeight)).getD (H - 1)

/-- `_get_peakedness` at one voxel: raw reflectivity minus the median
filter of its height slice. -/
def _get_peakedness {M N H : ℕ}
    (reflectivity : Fin M → Fin N → Fin H → ℚ)
    (numRowsInNeigh numColumnsInNeigh : ℕ) (i : Fin M) (j : Fin N) (k : ℕ) : ℚ :=
  rGet reflectivity i j k -
    median_filter (fun i' j' => rGet reflectivity i' j' k)
      numRowsInNeigh numColumnsInNeigh i j

/-- `_get_peakedness_thresholds`: `10 - r²/337.5`, floored at 4. -/
def _get_peakedness_thresholds (r : ℚ) : ℚ :=
  let v := 10 - r ^ 2 / 337.5
  if v < 4 then 4 else v

/-- Criterion 1's per-column numerator: the number of slab heights whose
peakedness exceeds its threshold. -/
def criterion1Numerator (cosDeg : ℚ → ℚ) {M N H : ℕ}
    (reflectivity : Fin M → Fin N → Fin H → ℚ)
    (peakednessNeighMetres maxPeakednessHeight : ℚ)
    (latitudeSpacingDeg longitudeSpacingDeg : ℚ) (latitudesDeg : List ℚ)
    (heights : Fin H → ℚ) (i : Fin M) (j : Fin N) : ℕ :=
  let maxIdx := maxHeightIndex heights maxPeakednessHeight
  let nrc := _neigh_metres_to_rowcol cosDeg peakednessNeighMetres
    latitudeSpacingDeg longitudeSpacingDeg latitudesDeg
  (List.range (maxIdx + 1)).countP fun k =>
    decide (_get_peakedness reflectivity nrc.1.toNat nrc.2.toNat i j k >
      _get_peakedness_thresholds (rGet reflectivity i j k))

/-- Criterion 1's per-column denominator: the number of slab heights with
positive reflectivity. -/
def criterion1Denominator {M N H : ℕ} (reflectivity : Fin M → Fin N → Fin H → ℚ)
    (maxPeakednessHeight : ℚ) (heights : Fin H → ℚ) (i : Fin M) (j : Fin N) : ℕ :=
  let maxIdx := maxHeightIndex heights maxPeakednessHeight
  (List.range (maxIdx + 1)).countP fun k => decide (rGet reflectivity i j k > 0)

/-- `fractional_exceedance >= 0.5` on a float value: false for NaN, true
for +∞. -/
def fltGeHalf : CustomLosses.Flt → Bool
  | CustomLosses.Flt.fin q => decide (q ≥ 1 / 2)
  | CustomLosses.Flt.posInf => true
  | CustomLosses.Flt.negInf => false
  | CustomLosses.Flt.nan => false

/-- `_apply_convective_criterion1` (default-resolution path): the
fractional-exceedance flag, AND-gated with the composite-reflectivity
threshold when one is configured (`min_composite_refl_dbz` may be None). -/
def _apply_convective_criterion1 (cosDeg : ℚ → ℚ) {M N H : ℕ}
    (reflectivity : Fin M → Fin N → Fin H → ℚ)
    (peakednessNeighMetres maxPeakednessHeight : ℚ)
    (minCompositeRefl : Option ℚ)
    (latitudeSpacingDeg longitudeSpacingDeg : ℚ) (latitudesDeg : List ℚ)
    (heights : Fin H → ℚ) : Fin M → Fin N → Bool :=
  fun i j =>
    let flag := fltGeHalf (CustomLosses.fdiv
      ((criterion1Numerator cosDeg reflectivity peakednessNeighMetres
        maxPeakednessHeight latitudeSpacingDeg longitudeSpacingDeg latitudesDeg
        heights i j : ℕ) : ℚ)
      ((criterion1Denominator reflectivity maxPeakednessHeight heights i j : ℕ) : ℚ))
    match minCompositeRefl with
    | none => flag
    | some m => flag && decide (Np.npMax (List.ofFn fun k => reflectivity i j k) ≥ m)

/-- The reflectivity volume of the criterion-1 counterexample: a 3×3×1 grid,
−1 dBZ at the centre pixel and −50 dBZ elsewhere. -/
def exRefl : Fin 3 → Fin 3 → Fin 1 → ℚ :=
  fun i j _ => if i = 1 ∧ j = 1 then -1 else -50

/-- A concrete stand-in for `numpy.cos(numpy.deg2rad(·))` at the
counterexample's grid: the constant 9999/10000, inside the interval
(9/10, 1] certified below to contain the real cos(0.1°) — and the window
size is the same for every cosine value in that interval. -/
def exCosDeg : ℚ → ℚ := fun _ => 9999 / 10000

theorem criterion1_window_stable (c : ℚ) (hc1 : 9 / 10 < c) (hc2 : c ≤ 1) :
    _neigh_metres_to_rowcol (fun _ => c) 1000 (1 / 10) (1 / 10)
      [23, 23.1, 23.2] = (3, 3) := by
  have hmean : (Np.npMax [23, 23.1, 23.2] - Np.npMin [23, 23.1, 23.2]) / 2 = (1 / 10 : ℚ) := by
    have h1 : Np.npMax [23, 23.1, 23.2] = 23.2 := by
      unfold Np.npMax
      norm_num [max_def]
    have h2 : Np.npMin [23, 23.1, 23.2] = 23 := by
      unfold Np.npMin
      norm_num [min_def]
    rw [h1, h2]
    norm_num
  have hpos : (0 : ℚ) < 1 / 10 * DEGREES_LAT_TO_METRES * c := by
    unfold DEGREES_LAT_TO_METRES
    nlinarith
  have hceil1 : ⌈(1000 : ℚ) / (1 / 10 * DEGREES_LAT_TO_METRES)⌉ = 1 := by
    rw [Int.ceil_eq_iff]
    unfold DEGREES_LAT_TO_METRES
    norm_num
  have hceil2 : ⌈(1000 : ℚ) / (1 / 10 * DEGREES_LAT_TO_METRES * c)⌉ = 1 := by
    rw [Int.ceil_eq_iff]
    constructor
    · have hq : (0 : ℚ) < 1000 / (1 / 10 * DEGREES_LAT_TO_METRES * c) :=
        div_pos (by norm_num) hpos
      push_cast
      linarith
    · rw [div_le_iff₀ hpos]
      unfold DEGREES_LAT_TO_METRES
      push_cast
      nlinarith
  simp only [_neigh_metres_to_rowcol, hmean, hceil1, hceil2]
  norm_num

theorem cos_tenth_degree_bounds :
    (9 / 10 : ℝ) < Real.cos (Real.pi / 1800) ∧ Real.cos (Real.pi / 1800) ≤ 1 := by
  refine ⟨?_, Real.cos_le_one _⟩
  have hb := Real.one_sub_sq_div_two_le_cos (x := Real.pi / 1800)
  have hπ := Real.pi_lt_d2
  have hπ0 := Real.pi_pos
  nlinarith

end EchoClassification

/-- C5 counterexample: on the 3×3×1 volume with −1 dBZ in the centre column
and −50 dBZ around it (heights {1000 m}, peakedness radius 1000 m, max
peakedness height 9000 m, no composite gate, 0.1° spacings, latitudes
{23°, 23.1°, 23.2°}), the centre column has no positive reflectivity and
denominator 0, yet its peakedness (−1 − (−50) = 49) exceeds the threshold
at the only height, so the numerator is 1; the float ratio is 1/0 = +∞,
+∞ ≥ 0.5 holds, and criterion 1 marks the column convective. -/
theorem criterion1_flags_column_without_positive_reflectivity :
    EchoClassification.exRefl 1 1 0 ≤ 0 ∧
    EchoClassification.criterion1Denominator EchoClassification.exRefl 9000
      (fun _ => 1000) 1 1 = 0 ∧
    EchoClassification.criterion1Numerator EchoClassification.exCosDeg
      EchoClassification.exRefl 1000 9000 (1 / 10) (1 / 10) [23, 23.1, 23.2]
      (fun _ => 1000) 1 1 = 1 ∧
    EchoClassification._apply_convective_criterion1 EchoClassification.exCosDeg
      EchoClassification.exRefl 1000 9000 none (1 / 10) (1 / 10) [23, 23.1, 23.2]
      (fun _ => 1000) 1 1 = true := by
  with_unfolding_all decide

/-- C5 (amended): in every column with no positive reflectivity among the
qualifying (slab) heights, the fractional-exceedance denominator is zero,
and — with no composite gate — the criterion-1 flag equals
`numerator ≠ 0`: it is false when the peakedness-exceedance count is also
zero (0/0 = NaN, NaN ≥ 0.5 false), but true when that count is positive
(k/0 = +∞ ≥ 0.5); with a composite gate and zero numerator the flag is
false for every gate value. -/
theorem criterion1_zero_denominator_flag {M N H : ℕ} (cosDeg : ℚ → ℚ)
    (reflectivity : Fin M → Fin N → Fin H → ℚ)
    (peakednessNeighMetres maxPeakednessHeight : ℚ)
    (latitudeSpacingDeg longitudeSpacingDeg : ℚ) (latitudesDeg : List ℚ)
    (heights : Fin H → ℚ) (i : Fin M) (j : Fin N)
    (hcol : ∀ k ∈ List.range
      (EchoClassification.maxHeightIndex heights maxPeakednessHeight + 1),
      EchoClassification.rGet reflectivity i j k ≤ 0) :
    EchoClassification.criterion1Denominator reflectivity maxPeakednessHeight
      heights i j = 0 ∧
    EchoClassification._apply_convective_criterion1 cosDeg reflectivity
      peakednessNeighMetres maxPeakednessHeight none latitudeSpacingDeg
      longitudeSpacingDeg latitudesDeg heights i j =
      decide (EchoClassification.criterion1Numerator cosDeg reflectivity
        peakednessNeighMetres maxPeakednessHeight latitudeSpacingDeg
        longitudeSpacingDeg latitudesDeg heights i j ≠ 0) ∧
    (EchoClassification.criterion1Numerator cosDeg reflectivity
        peakednessNeighMetres maxPeakednessHeight latitudeSpacingDeg
        longitudeSpacingDeg latitudesDeg heights i j = 0 →
      ∀ minCompositeRefl : Option ℚ,
        EchoClassification._apply_convective_criterion1 cosDeg reflectivity
          peakednessNeighMetres maxPeakednessHeight minCompositeRefl
          latitudeSpacingDeg longitudeSpacingDeg latitudesDeg heights i j = false) := by
  have hden : EchoClassification.criterion1Denominator reflectivity
      maxPeakednessHeight heights i j = 0 := by
    unfold EchoClassification.criterion1Denominator
    rw [List.countP_eq_zero]
    intro k hk
    simp only [decide_eq_true_eq, not_lt]
    exact hcol k hk
  have hflag : ∀ minC : Option ℚ,
      EchoClassification._apply_convective_criterion1 cosDeg reflectivity
        peakednessNeighMetres maxPeakednessHeight minC latitudeSpacingDeg
        longitudeSpacingDeg latitudesDeg heights i j =
      (match minC with
       | none => decide (EchoClassification.criterion1Numerator cosDeg reflectivity
          peakednessNeighMetres maxPeakednessHeight latitudeSpacingDeg
          longitudeSpacingDeg latitudesDeg heights i j ≠ 0)
       | some m => decide (EchoClassification.criterion1Numerator cosDeg reflectivity
          peakednessNeighMetres maxPeakednessHeight latitudeSpacingDeg
          longitudeSpacingDeg latitudesDeg heights i j ≠ 0) &&
          decide (Np.npMax (List.ofFn fun k => reflectivity i j k) ≥ m)) := by
    intro minC
    unfold EchoClassification._apply_convective_criterion1
    rw [hden]
    have hdiv : EchoClassification.fltGeHalf (CustomLosses.fdiv
        ((EchoClassification.criterion1Numerator cosDeg reflectivity
          peakednessNeighMetres maxPeakednessHeight latitudeSpacingDeg
          longitudeSpacingDeg latitudesDeg heights i j : ℕ) : ℚ) ((0 : ℕ) : ℚ)) =
        decide (EchoClassification.criterion1Numerator cosDeg reflectivity
          peakednessNeighMetres maxPeakednessHeight latitudeSpacingDeg
          longitudeSpacingDeg latitudesDeg heights i j ≠ 0) := by
      set n := EchoClassification.criterion1Numerator cosDeg reflectivity
        peakednessNeighMetres maxPeakednessHeight latitudeSpacingDeg
        longitudeSpacingDeg latitudesDeg heights i j with hn
      by_cases h0 : n = 0
      · rw [h0]
        unfold CustomLosses.fdiv EchoClassification.fltGeHalf
        norm_num
      · have hpos : (0 : ℚ) < (n : ℚ) := by
          exact_mod_cast Nat.pos_of_ne_zero h0
        unfold CustomLosses.fdiv
        rw [if_pos (by norm_num), if_neg (by exact_mod_cast h0), if_pos hpos]
        unfold EchoClassification.fltGeHalf
        simp [h0]
      
    cases minC with
    | none => exact hdiv
    | some m => rw [hdiv]
  refine ⟨hden, ?_, ?_⟩
  · rw [hflag none]
  · intro hnum minC
    rw [hflag minC]
    cases minC with
    | none => simp [hnum]
    | some m => simp [hnum]

/-- Witness for C5 (amended): the all-zero 1×1×1 volume — denominator 0,
numerator 0, flag false. -/
theorem criterion1_zero_denominator_flag_witness :
    (∀ k ∈ List.range
      (EchoClassification.maxHeightIndex (fun _ : Fin 1 => (1000 : ℚ)) 9000 + 1),
      EchoClassification.rGet (fun (_ : Fin 1) (_ : Fin 1) (_ : Fin 1) => (0 : ℚ)) 0 0 k ≤ 0) ∧
    EchoClassification.criterion1Denominator
      (fun (_ : Fin 1) (_ : Fin 1) (_ : Fin 1) => (0 : ℚ)) 9000 (fun _ => 1000) 0 0 = 0 := by
  have h : ∀ k ∈ List.range
      (EchoClassification.maxHeightIndex (fun _ : Fin 1 => (1000 : ℚ)) 9000 + 1),
      EchoClassification.rGet (fun (_ : Fin 1) (_ : Fin 1) (_ : Fin 1) => (0 : ℚ)) 0 0 k ≤ 0 := by
    with_unfolding_all decide
  exact ⟨h, (criterion1_zero_denominator_flag (fun _ => 1) _ 1000 9000 (1 / 10) (1 / 10)
    [23] (fun _ => 1000) 0 0 h).1⟩
